import Mathlib

/-!
Verification development for the satellite-state reconstruction engine of
rt-navi (src/ephemeris.rs, src/kepler.rs, src/clock.rs, src/time.rs).

Modelling conventions:
* Epochs in the GPST scale are whole nanosecond counts since the GPST
  reference (hifitime `Epoch` restricted to the GPST scale); week /
  time-of-week decomposition is integer div/mod by the nanoseconds of one
  week, matching `Epoch::to_time_of_week` / `Epoch::from_time_of_week`.
* `f64` quantities are modelled as exact rationals.  The transcendental
  `f64` operations (sin, cos, sqrt, atan2) are abstracted as an explicit
  `FloatOps` record of rational functions; every theorem about the orbit
  code quantifies over this record, so it holds in particular for the true
  floating-point functions.  In the week-number resolver the `f64` round
  trip is exact (inputs are below 2^53 and division is by a power of two),
  so it is modelled directly on rationals.
* `u32`/`u16` machine integers are natural numbers; where Rust release-mode
  wrapping matters (the week resolver) the wrap is written explicitly as
  `% 2 ^ 32`.
-/

set_option autoImplicit false

namespace RtNavi

/-- Nanoseconds in one GPS week (hifitime's week/time-of-week unit). -/
def weekNanos : ℕ := 604800 * 1000000000

/-- A GPST epoch: whole nanoseconds since the GPST reference epoch. -/
abbrev Epoch := ℕ

/-- `Epoch::to_time_of_week().0` — GPS week number of an epoch. -/
def toWeek (t : Epoch) : ℕ := t / weekNanos

/-- `Epoch::to_time_of_week().1` — nanoseconds into the GPS week. -/
def towNanos (t : Epoch) : ℕ := t % weekNanos

/-- `Epoch::from_time_of_week(week, nanos, TimeScale::GPST)`. -/
def fromTimeOfWeek (week : ℕ) (nanos : ℕ) : Epoch := week * weekNanos + nanos

/-- The fields of `RxmSfrbxGpsQzssFrame1` used by src/ephemeris.rs:
week (u16), iodc (u16), toc_s (u32), and the three clock coefficients. -/
structure Frame1 where
  week : ℕ
  iodc : ℕ
  toc_s : ℕ
  af0_s : ℚ
  af1_s_s : ℚ
  af2_s_s2 : ℚ
deriving DecidableEq

/-- The fields of `RxmSfrbxGpsQzssFrame2` used by the engine:
iode (u8), toe_s (u32) and the orbital parameters carried by subframe 2. -/
structure Frame2 where
  iode : ℕ
  toe_s : ℕ
  e : ℚ
  sqrt_a : ℚ
  m0_rad : ℚ
  dn_rad : ℚ
  cuc : ℚ
  cus : ℚ
  crs : ℚ
deriving DecidableEq

/-- The fields of `RxmSfrbxGpsQzssFrame3` used by the engine:
iode (u8) and the orbital parameters carried by subframe 3. -/
structure Frame3 where
  iode : ℕ
  i0_rad : ℚ
  omega_rad : ℚ
  omega0_rad : ℚ
  omega_dot_rad_s : ℚ
  idot_rad_s : ℚ
  crc : ℚ
  cic : ℚ
  cis : ℚ
deriving DecidableEq

/-- `RxmSfrbxGpsQzssSubframe` — the tagged union of the three frames. -/
inductive Subframe
  | eph1 (f : Frame1)
  | eph2 (f : Frame2)
  | eph3 (f : Frame3)
deriving DecidableEq

/-- `State` from src/ephemeris.rs (default `Collecting`). -/
inductive State
  | collecting
  | valid
  | invalid
deriving DecidableEq

/-- `SVKepler` from src/kepler.rs (satellite ids are bare naturals). -/
structure SVKepler where
  sv : ℕ
  a : ℚ
  e : ℚ
  m0 : ℚ
  i0 : ℚ
  cuc : ℚ
  cus : ℚ
  crc : ℚ
  crs : ℚ
  cic : ℚ
  cis : ℚ
  toc : ℕ
  toe : ℕ
  i_dot : ℚ
  delta_n : ℚ
  week : ℕ
  omega : ℚ
  omega0 : ℚ
  omega_dot : ℚ
deriving DecidableEq

/-- `SVKepler::from_gps` from src/kepler.rs (the constructor variant that
takes the three decoded frames; the call site in src/ephemeris.rs is from a
different vintage of the repository and additionally passes the resolved
toc/toe epochs, which this `SVKepler` does not store). -/
def SVKepler.from_gps (sv : ℕ) (frame1 : Frame1) (frame2 : Frame2) (frame3 : Frame3) :
    SVKepler where
  sv := sv
  a := frame2.sqrt_a ^ 2
  e := frame2.e
  m0 := frame2.m0_rad
  i0 := frame3.i0_rad
  cuc := frame2.cuc
  cus := frame2.cus
  crc := frame3.crc
  crs := frame2.crs
  cic := frame3.cic
  cis := frame3.cis
  i_dot := frame3.idot_rad_s
  week := frame1.week
  toc := frame1.toc_s
  toe := frame2.toe_s
  delta_n := frame2.dn_rad
  omega := frame3.omega_rad
  omega0 := frame3.omega0_rad
  omega_dot := frame3.omega_dot_rad_s

/-- `GpsSvEphemeris` from src/ephemeris.rs. -/
structure GpsSvEphemeris where
  sv : ℕ
  state : State
  frame1 : Option Frame1
  frame2 : Option Frame2
  frame3 : Option Frame3
deriving DecidableEq

/-- `GpsSvEphemeris::default()` — state `Collecting`, no frames stored. -/
def GpsSvEphemeris.init : GpsSvEphemeris :=
  { sv := 0, state := .collecting, frame1 := none, frame2 := none, frame3 := none }

/-- `GpsSvEphemeris::is_complete` — the three nested if-lets of
src/ephemeris.rs lines 67-80; `frame1.iodc as u8` is the low 8 bits. -/
def GpsSvEphemeris.is_complete (e : GpsSvEphemeris) : Bool :=
  match e.frame1, e.frame2, e.frame3 with
  | some frame1, some frame2, some frame3 =>
      frame2.iode == frame3.iode && frame1.iodc % 256 == frame2.iode
  | _, _, _ => false

/-- `GpsSvEphemeris::week_number` (src/ephemeris.rs lines 82-87).
`current_week - wn as u32` and `wn as u32 + rollover * 1024` are u32
release-mode (wrapping) operations, written here as explicit `% 2 ^ 32`;
the `f64` round trip `(delta as f64 / 1024.0).round() as u32` is exact for
these magnitudes (delta < 2^53, division by a power of two, result
nonnegative and below 2^32), and for nonnegative input `f64::round`
(half away from zero) agrees with Mathlib's `round` (half up). -/
def GpsSvEphemeris.week_number (t_gpst : Epoch) (wn : ℕ) : ℕ :=
  let current_week : ℕ := toWeek t_gpst % 2 ^ 32
  let delta : ℕ := (current_week + 2 ^ 32 - wn) % 2 ^ 32
  let rollover : ℕ := (delta + 512) / 1024
  (wn + 1024 * rollover) % 2 ^ 32

/-- Fidelity of the `rollover` computation: `(delta + 512) / 1024` in
natural-number arithmetic is exactly `(delta as f64 / 1024.0).round() as
u32` of the source, i.e. the rational `round` of `delta / 1024` (for
nonnegative arguments, round half away from zero is round half up). -/
theorem rollover_fidelity (delta : ℕ) :
    ((delta + 512) / 1024 : ℕ) = (round ((delta : ℚ) / 1024)).toNat := by
  have h : ((delta : ℚ)) / 1024 + 1 / 2 =
      ((2 * delta + 1024 : ℕ) : ℚ) / ((2048 : ℕ) : ℚ) := by
    push_cast
    ring
  rw [round_eq, h, Rat.floor_natCast_div_natCast, ← Int.natCast_div,
    Int.toNat_natCast]
  have h2 : 2 * delta + 1024 = 2 * (delta + 512) := by ring
  have h3 : (2048 : ℕ) = 2 * 1024 := by norm_num
  rw [h2, h3, Nat.mul_div_mul_left _ _ (by norm_num)]

/-- `GpsSvEphemeris::toc_gpst` (src/ephemeris.rs lines 118-125). -/
def GpsSvEphemeris.toc_gpst (e : GpsSvEphemeris) (t_gpst : Epoch) : Option Epoch :=
  match e.frame1 with
  | none => none
  | some frame1 =>
      let toc_nanos := frame1.toc_s * 1000000000
      let week := GpsSvEphemeris.week_number t_gpst frame1.week
      some (fromTimeOfWeek week toc_nanos)

/-- `GpsSvEphemeris::toe_gpst` (src/ephemeris.rs lines 127-134). -/
def GpsSvEphemeris.toe_gpst (e : GpsSvEphemeris) (t_gpst : Epoch) : Option Epoch :=
  match e.frame1, e.frame2 with
  | some frame1, some frame2 =>
      let toe_nanos := frame2.toe_s * 1000000000
      let week := GpsSvEphemeris.week_number t_gpst frame1.week
      some (fromTimeOfWeek week toe_nanos)
  | _, _ => none

/-- `GpsSvEphemeris::update` (src/ephemeris.rs lines 28-65): in state
`Collecting` the incoming subframe is stored in its slot and completeness
promotes the state to `Invalid`; in states `Invalid`/`Valid` the subframe
itself is not stored and only the state field may change. -/
def GpsSvEphemeris.update (e : GpsSvEphemeris) (t : Epoch) (subframe : Subframe) :
    GpsSvEphemeris :=
  match e.state with
  | .collecting =>
      let stored :=
        match subframe with
        | .eph1 eph1 => { e with frame1 := some eph1 }
        | .eph2 eph2 => { e with frame2 := some eph2 }
        | .eph3 eph3 => { e with frame3 := some eph3 }
      if stored.is_complete then { stored with state := .invalid } else stored
  | .invalid =>
      match e.toe_gpst t with
      | some toe => if t > toe then { e with state := .valid } else e
      | none => { e with state := .collecting }
  | .valid =>
      match e.toe_gpst t with
      | some _ => e
      | none => { e with state := .collecting }

/-- `GpsSvEphemeris::to_kepler` (src/ephemeris.rs lines 89-116), the code's
`validate` operation: note the guard is `if self.is_complete() return None`
and the snapshot additionally requires `toe_gpst < toc_gpst`. -/
def GpsSvEphemeris.to_kepler (e : GpsSvEphemeris) (t_gpst : Epoch) : Option SVKepler :=
  if e.is_complete then none
  else
    match e.frame1, e.frame2, e.frame3 with
    | some frame1, some frame2, some frame3 =>
        match e.toc_gpst t_gpst, e.toe_gpst t_gpst with
        | some toc_gpst, some toe_gpst =>
            if toe_gpst < toc_gpst then
              some (SVKepler.from_gps e.sv frame1 frame2 frame3)
            else none
        | _, _ => none
    | _, _, _ => none

/-- A clock correction, as the duration in seconds it wraps
(`ClockCorrection::without_relativistic_correction`). -/
abbrev ClockCorrection := ℚ

/-- The loop body of `GpsSvEphemeris::clock_correction` applied `n` times:
`dt -= a0 + a1 * dt + a2 * dt.powi(2)`. -/
def clockIter (a0 a1 a2 : ℚ) : ℕ → ℚ → ℚ
  | 0, dt => dt
  | n + 1, dt => clockIter a0 a1 a2 n (dt - (a0 + a1 * dt + a2 * dt ^ 2))

/-- `GpsSvEphemeris::clock_correction` (src/ephemeris.rs lines 136-154).
The epoch argument is already in GPST (`to_time_scale` is the identity
here); `(t_gpst - toc_gpst).to_seconds()` is the signed difference of the
two nanosecond counts divided by 1e9. -/
def GpsSvEphemeris.clock_correction (e : GpsSvEphemeris) (t : Epoch) :
    Option ClockCorrection :=
  if e.is_complete then none
  else
    match e.frame1 with
    | none => none
    | some frame1 =>
        let t_gpst := t
        let a0 := frame1.af0_s
        let a1 := frame1.af1_s_s
        let a2 := frame1.af2_s_s2
        match e.toc_gpst t_gpst with
        | none => none
        | some toc_gpst =>
            let dt0 : ℚ := ((t_gpst : ℚ) - (toc_gpst : ℚ)) / 1000000000
            let dt := clockIter a0 a1 a2 10 dt0
            some (a0 + a1 * dt + a2 * dt ^ 2)

/-- `EphemerisBuffer` from src/ephemeris.rs — a vector of per-SV states. -/
abbrev EphemerisBuffer := List GpsSvEphemeris

/-- The `else` branch of `EphemerisBuffer::update`: a defaulted
`GpsSvEphemeris` with the satellite id set and the one slot stored. -/
def EphemerisBuffer.new_sv (sv : ℕ) (subframe : Subframe) : GpsSvEphemeris :=
  match subframe with
  | .eph1 eph1 => { GpsSvEphemeris.init with sv := sv, frame1 := some eph1 }
  | .eph2 eph2 => { GpsSvEphemeris.init with sv := sv, frame2 := some eph2 }
  | .eph3 eph3 => { GpsSvEphemeris.init with sv := sv, frame3 := some eph3 }

/-- `EphemerisBuffer::update` (src/ephemeris.rs lines 169-190):
`iter_mut().find` updates the first entry with matching id in place,
otherwise a fresh entry holding the subframe is pushed. -/
def EphemerisBuffer.update : EphemerisBuffer → Epoch → ℕ → Subframe → EphemerisBuffer
  | [], _, sv, subframe => [EphemerisBuffer.new_sv sv subframe]
  | e :: rest, t, sv, subframe =>
      if e.sv == sv then e.update t subframe :: rest
      else e :: EphemerisBuffer.update rest t sv subframe

/-- `EphemerisBuffer::clock_correction` (src/ephemeris.rs lines 192-203):
find the first complete entry for the satellite and delegate. -/
def EphemerisBuffer.clock_correction (buffer : EphemerisBuffer) (t : Epoch) (sv : ℕ) :
    Option ClockCorrection :=
  match buffer.find? (fun buf => buf.sv == sv && buf.is_complete) with
  | some buff => buff.clock_correction t
  | none => none

/-- `SvClock` from src/clock.rs. -/
structure SvClock where
  sv : ℕ
  af0 : ℚ
deriving DecidableEq

/-- `ClockBuffer` from src/clock.rs — a vector of per-SV clock entries. -/
abbrev ClockBuffer := List SvClock

/-- `ClockBuffer::latch` (src/clock.rs lines 21-27): `iter_mut().find`
overwrites the `af0` of the first entry with matching id, otherwise the
new entry is pushed at the end. -/
def ClockBuffer.latch : ClockBuffer → SvClock → ClockBuffer
  | [], clock => [clock]
  | sv_clk :: rest, clock =>
      if sv_clk.sv == clock.sv then { sv_clk with af0 := clock.af0 } :: rest
      else sv_clk :: ClockBuffer.latch rest clock

/-- `ClockBuffer::clock_correction` (src/clock.rs lines 29-33). -/
def ClockBuffer.clock_correction (buffer : ClockBuffer) (sv : ℕ) :
    Option ClockCorrection :=
  match buffer.find? (fun buf => buf.sv == sv) with
  | some buf => some buf.af0
  | none => none

/-- The `f64` transcendental operations used by `KeplerBuffer::next_at`,
abstracted as rational functions.  All theorems about the orbit code
quantify over this record. -/
structure FloatOps where
  sin : ℚ → ℚ
  cos : ℚ → ℚ
  sqrt : ℚ → ℚ
  atan2 : ℚ → ℚ → ℚ

/-- `SVKepler::toe_gpst` (src/kepler.rs lines 67-72); `week_number` is the
resolver of src/ephemeris.rs (called `GpsSvRawEphemeris::week_number` in
the vintage of kepler.rs, same function). -/
def SVKepler.toe_gpst (k : SVKepler) (t_gpst : Epoch) : Epoch :=
  let toe_wn := GpsSvEphemeris.week_number t_gpst k.week
  let toe_nanos := k.toe * 1000000000
  fromTimeOfWeek toe_wn toe_nanos

/-- The `t_k` computation of `KeplerBuffer::next_at` (src/kepler.rs lines
126-133): seconds-of-week of the query (integer seconds) minus the raw
broadcast `toe` seconds-of-week, wrapped into the half-week window by
adding or subtracting 604800.  All values involved are exact integers. -/
def tkWrap (t_gpst : Epoch) (toe : ℕ) : ℤ :=
  let t_tow_s : ℤ := (towNanos t_gpst / 1000000000 : ℕ)
  let t_k := t_tow_s - (toe : ℤ)
  if t_k > 302400 then t_k - 604800
  else if t_k < -302400 then t_k + 604800
  else t_k

/-- The Kepler fixed-point loop of `KeplerBuffer::next_at` (src/kepler.rs
lines 139-145): `e_k` after `n` executions of
`e_k = m + e * e_k_lst.sin(); e_k_lst = e_k` starting from `e_k_lst = 0`.
The loop runs the step an unconditional 30 times; there is no tolerance
test and no convergence flag. -/
def kepler_iter (F : FloatOps) (m e : ℚ) : ℕ → ℚ
  | 0 => 0
  | n + 1 => m + e * F.sin (kepler_iter F m e n)

/-- The output of `Orbit::from_position(x_km, y_km, z_km, t_gpst, frame)`:
an ECEF position in kilometres together with the query epoch and the
(opaque) reference frame handle. -/
structure Orbit where
  x_km : ℚ
  y_km : ℚ
  z_km : ℚ
  t : Epoch
  frame : ℕ
deriving DecidableEq

/-- `GM_M3_S2 = 3.9860050E14` (src/kepler.rs line 102). -/
def GM_M3_S2 : ℚ := 398600500000000

/-- `OMEGA_EARTH = 7.2921151467E-5` (src/kepler.rs line 103). -/
def OMEGA_EARTH : ℚ := 72921151467 / 1000000000000000

/-- `KeplerBuffer::next_at` (src/kepler.rs lines 95-197), the `OrbitSource`
implementation.  The query epoch is already in GPST (`to_time_scale` is the
identity here).  The resolved `toe_gpst` epoch is computed but feeds only a
debug log; `t_k` comes from the raw seconds-of-week wrap `tkWrap`.  The
first binding `z = 0.0` of the source is immediately shadowed and is
omitted.  Whenever the satellite lookup succeeds the function returns
`some` position; nothing in the result distinguishes a non-converged
Kepler solve. -/
def KeplerBuffer.next_at (F : FloatOps) (buffer : List SVKepler) (epoch : Epoch)
    (sv : ℕ) (frame : ℕ) : Option Orbit :=
  match buffer.find? (fun buf => buf.sv == sv) with
  | none => none
  | some sv_data =>
      let e := sv_data.e
      let e_2 := sv_data.e ^ 2
      let a := sv_data.a
      let a_3 := sv_data.a ^ 3
      let cus := sv_data.cus
      let cuc := sv_data.cuc
      let cis := sv_data.cis
      let cic := sv_data.cic
      let crs := sv_data.crs
      let crc := sv_data.crc
      let i0 := sv_data.i0
      let idot := sv_data.i_dot
      let omega0 := sv_data.omega0
      let omega_dot := sv_data.omega_dot
      let t_gpst := epoch
      let toe_gpst := sv_data.toe_gpst t_gpst
      let toe_s : ℚ := (sv_data.toe : ℚ)
      let t_k : ℚ := (tkWrap t_gpst sv_data.toe : ℚ)
      let n0 := F.sqrt (GM_M3_S2 / a_3)
      let n := n0 + sv_data.delta_n
      let m := sv_data.m0 + n * t_k
      let e_k := kepler_iter F m e 30
      let sin_e_k := F.sin e_k
      let cos_e_k := F.cos e_k
      let v_k := F.atan2 (F.sqrt (1 - e_2) * sin_e_k) (cos_e_k - e)
      let phi := v_k + sv_data.omega
      let sin_2phi := F.sin (2 * phi)
      let cos_2phi := F.cos (2 * phi)
      let du := cus * sin_2phi + cuc * cos_2phi
      let u := phi + du
      let dr := crs * sin_2phi + crc * cos_2phi
      let r := a * (1 - e * cos_e_k) + dr
      let di := cis * sin_2phi + cic * cos_2phi
      let i := i0 + di + idot * t_k
      let x_orb := r * F.cos u
      let y_orb := r * F.sin u
      let omega := omega0 + (omega_dot - OMEGA_EARTH) * t_k - OMEGA_EARTH * toe_s
      let sin_i := F.sin i
      let cos_i := F.cos i
      let sin_omega := F.sin omega
      let cos_omega := F.cos omega
      let x := x_orb * cos_omega - y_orb * cos_i * sin_omega
      let y := x_orb * sin_omega - y_orb * cos_i * cos_omega
      let z := y_orb * sin_omega
      let x_km := x * (1 / 1000)
      let y_km := y * (1 / 1000)
      let z_km := z * (1 / 1000)
      some { x_km := x_km, y_km := y_km, z_km := z_km, t := t_gpst, frame := frame }

/-- `KeplerBuffer::latch` (src/kepler.rs lines 88-91): drop every entry for
the incoming satellite id, then push the new element. -/
def KeplerBuffer.latch (buffer : List SVKepler) (kepler : SVKepler) : List SVKepler :=
  buffer.filter (fun buf => !(buf.sv == kepler.sv)) ++ [kepler]

/-- A whole producer history of `KeplerBuffer::latch` calls starting from
`KeplerBuffer::new()` (the empty buffer). -/
def KeplerBuffer.run (l : List SVKepler) : List SVKepler :=
  l.foldl KeplerBuffer.latch []

/-- A whole producer history of `ClockBuffer::latch` calls starting from
`ClockBuffer::new()` (the empty buffer). -/
def ClockBuffer.run (l : List SvClock) : ClockBuffer :=
  l.foldl ClockBuffer.latch []

/-- A whole per-satellite history of `GpsSvEphemeris::update` calls. -/
def GpsSvEphemeris.run (e : GpsSvEphemeris) (l : List (Epoch × Subframe)) :
    GpsSvEphemeris :=
  l.foldl (fun acc p => acc.update p.1 p.2) e

/-- Modelled from the spec (section 4.3): the clock-offset iteration as the
claim states it, `dt` seeded from `dt0` and replaced by
`af0 + af1 * dt + af2 * dt ^ 2` on every step; the claim's returned value
is this after 10 steps.  Kept for comparison against the code's
`clockIter`. -/
def clockSpecIter (a0 a1 a2 : ℚ) : ℕ → ℚ → ℚ
  | 0, dt => dt
  | n + 1, dt => clockSpecIter a0 a1 a2 n (a0 + a1 * dt + a2 * dt ^ 2)

/-- `f64::round` — round half away from zero (Mathlib's `round` rounds
half up; the two agree on nonnegative input). -/
def roundAway (x : ℚ) : ℤ :=
  if 0 ≤ x then round x else -round (-x)

/-! ### Concrete fixtures used by counterexamples and witnesses -/

/-- A subframe-1 record: week 0, iodc 5, toc 1 s, clock polynomial zero. -/
def f1a : Frame1 :=
  { week := 0, iodc := 5, toc_s := 1, af0_s := 0, af1_s_s := 0, af2_s_s2 := 0 }

/-- A subframe-2 record with iode 5 and toe 0 s. -/
def f2a : Frame2 :=
  { iode := 5, toe_s := 0, e := 0, sqrt_a := 0, m0_rad := 0, dn_rad := 0,
    cuc := 0, cus := 0, crs := 0 }

/-- A subframe-3 record with iode 5, matching `f2a`. -/
def f3a : Frame3 :=
  { iode := 5, i0_rad := 0, omega_rad := 0, omega0_rad := 0,
    omega_dot_rad_s := 0, idot_rad_s := 0, crc := 0, cic := 0, cis := 0 }

/-- A subframe-3 record with iode 6, inconsistent with `f2a`. -/
def f3b : Frame3 := { f3a with iode := 6 }

/-- A per-satellite state with all three slots populated and consistent:
iodc low bits = 5 = Frame2.iode = Frame3.iode. -/
def ephComplete : GpsSvEphemeris :=
  { sv := 1, state := .collecting, frame1 := some f1a, frame2 := some f2a,
    frame3 := some f3a }

/-- The same state with an inconsistent subframe 3 (iode 6 against 5). -/
def ephInconsistent : GpsSvEphemeris := { ephComplete with frame3 := some f3b }

/-! ### C1 -/

/-- C1: the claim reads `to_kepler` (the code's `validate`) as returning a
snapshot exactly when the three slots are populated and consistent.  The
code's guard is inverted: evaluated at a populated, consistent state it
returns `none`, and evaluated at a populated but iode-inconsistent state
(with `toe_gpst < toc_gpst`) it returns `some`.  Both directions of the
claimed equivalence fail on the code; the spec is the evident intent
(`EphemerisBuffer::clock_correction` only ever delegates to entries that
are complete, which the same inverted guard then rejects), so this is a
code bug, not a spec error. -/
theorem c1_validate_inverted :
    ephComplete.is_complete = true ∧
      ephComplete.to_kepler 0 = none ∧
        ephInconsistent.is_complete = false ∧
          (ephInconsistent.to_kepler 0).isSome = true :=
  ⟨rfl, rfl, rfl, rfl⟩

/-! ### C7 -/

/-- C7: for every buffer state, query epoch and satellite id,
`EphemerisBuffer::clock_correction` returns `None`: the outer lookup keeps
only entries with `is_complete`, and `GpsSvEphemeris::clock_correction`
returns `None` whenever `is_complete` holds, so the path can never produce
a correction. -/
theorem c7_buffer_clock_none (buffer : EphemerisBuffer) (t : Epoch) (sv : ℕ) :
    EphemerisBuffer.clock_correction buffer t sv = none := by
  unfold EphemerisBuffer.clock_correction
  cases hfind : buffer.find? (fun buf => buf.sv == sv && buf.is_complete) with
  | none => rfl
  | some buff =>
      have hp := List.find?_some hfind
      simp only [Bool.and_eq_true] at hp
      simp only [GpsSvEphemeris.clock_correction, hp.2, if_true]

/-! ### Shared lemmas about `GpsSvEphemeris::update` -/

/-- Changing only the state field does not affect `is_complete`. -/
theorem is_complete_set_state (e : GpsSvEphemeris) (s : State) :
    ({ e with state := s } : GpsSvEphemeris).is_complete = e.is_complete := rfl

/-- A conditional state change leaves every frame slot unchanged. -/
theorem ite_set_state_frames (c : Prop) [Decidable c] (e : GpsSvEphemeris) (s : State) :
    (if c then ({ e with state := s } : GpsSvEphemeris) else e).frame1 = e.frame1 ∧
      (if c then ({ e with state := s } : GpsSvEphemeris) else e).frame2 = e.frame2 ∧
        (if c then ({ e with state := s } : GpsSvEphemeris) else e).frame3 = e.frame3 := by
  split <;> exact ⟨rfl, rfl, rfl⟩

/-- A conditional state change does not affect `is_complete`. -/
theorem ite_set_state_complete (c : Prop) [Decidable c] (e : GpsSvEphemeris) (s : State) :
    (if c then ({ e with state := s } : GpsSvEphemeris) else e).is_complete =
      e.is_complete := by
  split <;> rfl

/-- In states other than `Collecting`, `update` drops the incoming
subframe: no frame slot changes. -/
theorem update_frames_eq (e : GpsSvEphemeris) (t : Epoch) (sf : Subframe)
    (h : e.state ≠ .collecting) :
    (e.update t sf).frame1 = e.frame1 ∧ (e.update t sf).frame2 = e.frame2 ∧
      (e.update t sf).frame3 = e.frame3 := by
  cases hs : e.state with
  | collecting => exact absurd hs h
  | invalid =>
      simp only [GpsSvEphemeris.update, hs]
      cases e.toe_gpst t with
      | none => exact ⟨rfl, rfl, rfl⟩
      | some toe => exact ite_set_state_frames (t > toe) e .valid
  | valid =>
      simp only [GpsSvEphemeris.update, hs]
      cases e.toe_gpst t with
      | none => exact ⟨rfl, rfl, rfl⟩
      | some toe => exact ⟨rfl, rfl, rfl⟩

/-- One `update` step preserves the invariant that a non-`Collecting`
state implies completeness of the stored frames. -/
theorem update_complete_inv (e : GpsSvEphemeris) (t : Epoch) (sf : Subframe)
    (h : e.state ≠ .collecting → e.is_complete = true) :
    (e.update t sf).state ≠ .collecting → (e.update t sf).is_complete = true := by
  cases hs : e.state with
  | collecting =>
      simp only [GpsSvEphemeris.update, hs]
      cases sf with
      | eph1 f =>
          split
          next hc => exact fun _ => hc
          next hc => exact fun hne => absurd rfl hne
      | eph2 f =>
          split
          next hc => exact fun _ => hc
          next hc => exact fun hne => absurd rfl hne
      | eph3 f =>
          split
          next hc => exact fun _ => hc
          next hc => exact fun hne => absurd rfl hne
  | invalid =>
      have hcomp := h (by simp [hs])
      simp only [GpsSvEphemeris.update, hs]
      cases e.toe_gpst t with
      | none => intro hne; exact absurd rfl hne
      | some toe =>
          intro _
          exact (ite_set_state_complete (t > toe) e .valid).trans hcomp
  | valid =>
      have hcomp := h (by simp [hs])
      simp only [GpsSvEphemeris.update, hs]
      cases e.toe_gpst t with
      | none => intro hne; exact absurd rfl hne
      | some toe => intro _; exact hcomp

/-- The completeness invariant holds along every `update` history. -/
theorem run_complete_inv (l : List (Epoch × Subframe)) (e : GpsSvEphemeris)
    (h : e.state ≠ .collecting → e.is_complete = true) :
    (e.run l).state ≠ .collecting → (e.run l).is_complete = true := by
  induction l generalizing e with
  | nil => exact h
  | cons p rest ih =>
      exact ih (e.update p.1 p.2) (update_complete_inv e p.1 p.2 h)

/-- `is_complete` spelt out as the claims state it. -/
theorem is_complete_iff (e : GpsSvEphemeris) :
    e.is_complete = true ↔
      ∃ f1 f2 f3, e.frame1 = some f1 ∧ e.frame2 = some f2 ∧ e.frame3 = some f3 ∧
        f2.iode = f3.iode ∧ f1.iodc % 256 = f2.iode := by
  unfold GpsSvEphemeris.is_complete
  cases e.frame1 with
  | none => simp
  | some f1 =>
      cases e.frame2 with
      | none => simp
      | some f2 =>
          cases e.frame3 with
          | none => simp
          | some f3 =>
              simp only [Bool.and_eq_true, beq_iff_eq, Option.some.injEq]
              constructor
              · rintro ⟨h1, h2⟩
                exact ⟨f1, f2, f3, rfl, rfl, rfl, h1, h2⟩
              · rintro ⟨g1, g2, g3, h1, h2, h3, h4, h5⟩
                cases h1
                cases h2
                cases h3
                exact ⟨h4, h5⟩

/-! ### C4 -/

/-- A satellite state that has been validated (state `Valid`). -/
def ephValid : GpsSvEphemeris := { ephComplete with state := .valid }

/-- A replacement subframe 2 with a different iode. -/
def f2b : Frame2 := { f2a with iode := 7 }

/-- C4 counterexample: updating a previously validated satellite with a
new, inconsistent subframe 2 leaves the stored subframe 2 untouched — the
incoming subframe is dropped, not stored, so the claimed unconditional
slot overwrite fails. -/
theorem c4_update_counterexample :
    ephValid.state = .valid ∧
      (ephValid.update 0 (.eph2 f2b)).frame2 = some f2a ∧
        some f2a ≠ some f2b := by
  refine ⟨rfl, rfl, ?_⟩
  decide

/-- C4 (amended): `update` stores/overwrites the matching slot only while
the satellite is in the `Collecting` state; in states `Invalid` and
`Valid` the incoming subframe is dropped and no slot changes (the
satellite can still fall back to not-yet-validated, but only by the state
field resetting, never by a slot overwrite).  At the buffer level, an
unknown satellite id appends a fresh entry holding the subframe.  The
operation is total — it never fails. -/
theorem c4_update_slots :
    (∀ (e : GpsSvEphemeris) (t : Epoch) (f : Frame1), e.state = .collecting →
        (e.update t (.eph1 f)).frame1 = some f ∧
          (e.update t (.eph1 f)).frame2 = e.frame2 ∧
            (e.update t (.eph1 f)).frame3 = e.frame3) ∧
      (∀ (e : GpsSvEphemeris) (t : Epoch) (f : Frame2), e.state = .collecting →
          (e.update t (.eph2 f)).frame2 = some f ∧
            (e.update t (.eph2 f)).frame1 = e.frame1 ∧
              (e.update t (.eph2 f)).frame3 = e.frame3) ∧
        (∀ (e : GpsSvEphemeris) (t : Epoch) (f : Frame3), e.state = .collecting →
            (e.update t (.eph3 f)).frame3 = some f ∧
              (e.update t (.eph3 f)).frame1 = e.frame1 ∧
                (e.update t (.eph3 f)).frame2 = e.frame2) ∧
          (∀ (e : GpsSvEphemeris) (t : Epoch) (sf : Subframe),
              e.state ≠ .collecting →
              (e.update t sf).frame1 = e.frame1 ∧
                (e.update t sf).frame2 = e.frame2 ∧
                  (e.update t sf).frame3 = e.frame3) ∧
            (∀ (buffer : EphemerisBuffer) (t : Epoch) (sv : ℕ) (sf : Subframe),
                (∀ b ∈ buffer, b.sv ≠ sv) →
                EphemerisBuffer.update buffer t sv sf =
                  buffer ++ [EphemerisBuffer.new_sv sv sf]) := by
  refine ⟨?_, ?_, ?_, update_frames_eq, ?_⟩
  · intro e t f h
    simp only [GpsSvEphemeris.update, h]
    split <;> exact ⟨rfl, rfl, rfl⟩
  · intro e t f h
    simp only [GpsSvEphemeris.update, h]
    split <;> exact ⟨rfl, rfl, rfl⟩
  · intro e t f h
    simp only [GpsSvEphemeris.update, h]
    split <;> exact ⟨rfl, rfl, rfl⟩
  · intro buffer t sv sf
    induction buffer with
    | nil => intro _; rfl
    | cons hd tl ih =>
        intro h
        have hhd : (hd.sv == sv) = false := by
          simp only [beq_eq_false_iff_ne]
          exact h hd (List.mem_cons_self hd tl)
        simp only [EphemerisBuffer.update, hhd, Bool.false_eq_true, if_false,
          List.cons_append, List.cons.injEq, true_and]
        exact ih fun b hb => h b (List.mem_cons_of_mem hd hb)

/-- C4 witness: the amended theorem applied at concrete inputs — a
collecting-state store, a valid-state drop, and a fresh-satellite append. -/
theorem c4_update_slots_witness :
    ((GpsSvEphemeris.init.update 0 (.eph1 f1a)).frame1 = some f1a ∧
        (GpsSvEphemeris.init.update 0 (.eph1 f1a)).frame2 = GpsSvEphemeris.init.frame2 ∧
          (GpsSvEphemeris.init.update 0 (.eph1 f1a)).frame3 = GpsSvEphemeris.init.frame3) ∧
      ((ephValid.update 0 (.eph2 f2b)).frame1 = ephValid.frame1 ∧
          (ephValid.update 0 (.eph2 f2b)).frame2 = ephValid.frame2 ∧
            (ephValid.update 0 (.eph2 f2b)).frame3 = ephValid.frame3) ∧
        EphemerisBuffer.update [] 0 3 (.eph2 f2a) =
          [] ++ [EphemerisBuffer.new_sv 3 (.eph2 f2a)] :=
  ⟨c4_update_slots.1 GpsSvEphemeris.init 0 f1a rfl,
    c4_update_slots.2.2.2.1 ephValid 0 (.eph2 f2b) (by decide),
      c4_update_slots.2.2.2.2 [] 0 3 (.eph2 f2a) (by simp)⟩

/-! ### C10 -/

/-- C10: along every per-satellite `update` history starting from the
defaulted state, whenever the state field is `Valid` or `Invalid` all
three frame slots are populated, Frame2.iode equals Frame3.iode, and the
low 8 bits of Frame1.iodc equal Frame2.iode; moreover `update` calls in
those states never modify any frame slot. -/
theorem c10_state_invariant :
    (∀ l : List (Epoch × Subframe),
        (GpsSvEphemeris.init.run l).state ≠ .collecting →
        ∃ f1 f2 f3, (GpsSvEphemeris.init.run l).frame1 = some f1 ∧
          (GpsSvEphemeris.init.run l).frame2 = some f2 ∧
            (GpsSvEphemeris.init.run l).frame3 = some f3 ∧
              f2.iode = f3.iode ∧ f1.iodc % 256 = f2.iode) ∧
      (∀ (e : GpsSvEphemeris) (t : Epoch) (sf : Subframe),
          e.state ≠ .collecting →
          (e.update t sf).frame1 = e.frame1 ∧
            (e.update t sf).frame2 = e.frame2 ∧
              (e.update t sf).frame3 = e.frame3) := by
  refine ⟨?_, update_frames_eq⟩
  intro l hne
  have h0 : GpsSvEphemeris.init.state ≠ State.collecting →
      GpsSvEphemeris.init.is_complete = true := fun hc => absurd rfl hc
  exact (is_complete_iff _).1 (run_complete_inv l GpsSvEphemeris.init h0 hne)

/-- A concrete update history: the three consistent frames arrive, the
state machine promotes to `Invalid`, then a later call (with the query
epoch past the resolved toe) promotes to `Valid`. -/
def updatesValid : List (Epoch × Subframe) :=
  [(0, .eph1 f1a), (0, .eph2 f2a), (0, .eph3 f3a), (1000000000, .eph1 f1a)]

/-- C10 witness: the invariant theorem applied at the concrete history
`updatesValid` (which ends in state `Valid`) and at a concrete
valid-state update. -/
theorem c10_state_invariant_witness :
    (∃ f1 f2 f3, (GpsSvEphemeris.init.run updatesValid).frame1 = some f1 ∧
        (GpsSvEphemeris.init.run updatesValid).frame2 = some f2 ∧
          (GpsSvEphemeris.init.run updatesValid).frame3 = some f3 ∧
            f2.iode = f3.iode ∧ f1.iodc % 256 = f2.iode) ∧
      ((ephValid.update 0 (.eph3 f3b)).frame1 = ephValid.frame1 ∧
          (ephValid.update 0 (.eph3 f3b)).frame2 = ephValid.frame2 ∧
            (ephValid.update 0 (.eph3 f3b)).frame3 = ephValid.frame3) :=
  ⟨c10_state_invariant.1 updatesValid (by decide),
    c10_state_invariant.2 ephValid 0 (.eph3 f3b) (by decide)⟩

/-! ### Shared lemmas about the satellite caches -/

/-- After a `KeplerBuffer::latch`, the entries for the latched id are
exactly the new element, whatever the buffer held before. -/
theorem kepler_latch_filter_self (buffer : List SVKepler) (k : SVKepler) :
    (KeplerBuffer.latch buffer k).filter (fun b => b.sv == k.sv) = [k] := by
  unfold KeplerBuffer.latch
  rw [List.filter_append, List.filter_filter]
  simp

/-- `KeplerBuffer::latch` keeps the per-id entry count at or below one. -/
theorem kepler_latch_count_le (buffer : List SVKepler) (k : SVKepler) (id : ℕ)
    (h : (buffer.filter (fun b => b.sv == id)).length ≤ 1) :
    ((KeplerBuffer.latch buffer k).filter (fun b => b.sv == id)).length ≤ 1 := by
  by_cases hk : k.sv = id
  · subst hk
    rw [kepler_latch_filter_self]
    simp
  · unfold KeplerBuffer.latch
    rw [List.filter_append]
    have hk2 : (k.sv == id) = false := by simpa using hk
    have hsub := ((buffer.filter_sublist (p := fun b => !(b.sv == k.sv))).filter
      (fun b => b.sv == id)).length_le
    simp only [List.filter, hk2]
    simpa using le_trans hsub h

/-- Every `KeplerBuffer::latch` history from the empty buffer keeps at
most one entry per satellite id. -/
theorem kepler_run_count (l : List SVKepler) (id : ℕ) :
    ((KeplerBuffer.run l).filter (fun b => b.sv == id)).length ≤ 1 := by
  suffices h : ∀ buffer : List SVKepler,
      (buffer.filter (fun b => b.sv == id)).length ≤ 1 →
      ((l.foldl KeplerBuffer.latch buffer).filter (fun b => b.sv == id)).length ≤ 1 from
    h [] (by simp)
  induction l with
  | nil => intro buffer hb; simpa using hb
  | cons k rest ih =>
      intro buffer hb
      exact ih (KeplerBuffer.latch buffer k) (kepler_latch_count_le buffer k id hb)

/-- `ClockBuffer::latch` does not touch entries of other satellite ids. -/
theorem clock_latch_filter_other (buffer : ClockBuffer) (c : SvClock) (id : ℕ)
    (h : c.sv ≠ id) :
    (ClockBuffer.latch buffer c).filter (fun b => b.sv == id) =
      buffer.filter (fun b => b.sv == id) := by
  have hc : (c.sv == id) = false := by simpa using h
  induction buffer with
  | nil => simp [ClockBuffer.latch, hc]
  | cons hd tl ih =>
      unfold ClockBuffer.latch
      by_cases hhd : hd.sv = c.sv
      · have h1 : (hd.sv == c.sv) = true := by simpa using hhd
        have h2 : (hd.sv == id) = false := by simp [hhd, hc]
        simp [h1, h2, List.filter]
      · have h1 : (hd.sv == c.sv) = false := by simpa using hhd
        simp only [h1, Bool.false_eq_true, if_false, List.filter]
        cases hval : hd.sv == id <;> simp [hval, ih]

/-- After a `ClockBuffer::latch` on a buffer holding at most one entry for
the latched id, the entries for that id are exactly the latched values. -/
theorem clock_latch_filter_self (buffer : ClockBuffer) (c : SvClock)
    (h : (buffer.filter (fun b => b.sv == c.sv)).length ≤ 1) :
    (ClockBuffer.latch buffer c).filter (fun b => b.sv == c.sv) =
      [{ sv := c.sv, af0 := c.af0 }] := by
  induction buffer with
  | nil => simp [ClockBuffer.latch]
  | cons hd tl ih =>
      unfold ClockBuffer.latch
      by_cases hhd : hd.sv = c.sv
      · have h1 : (hd.sv == c.sv) = true := by simpa using hhd
        have htl : (tl.filter (fun b => b.sv == c.sv)).length = 0 := by
          simp only [List.filter, h1, List.length_cons] at h
          omega
        have htl2 : tl.filter (fun b => b.sv == c.sv) = [] :=
          List.length_eq_zero.mp htl
        simp [h1, List.filter, htl2, hhd]
      · have h1 : (hd.sv == c.sv) = false := by simpa using hhd
        have h2 : (tl.filter (fun b => b.sv == c.sv)).length ≤ 1 := by
          simpa [List.filter, h1] using h
        simp only [h1, Bool.false_eq_true, if_false, List.filter]
        simpa [h1] using ih h2

/-- `ClockBuffer::latch` keeps the per-id entry count at or below one. -/
theorem clock_latch_count_le (buffer : ClockBuffer) (c : SvClock) (id : ℕ)
    (h : (buffer.filter (fun b => b.sv == id)).length ≤ 1) :
    ((ClockBuffer.latch buffer c).filter (fun b => b.sv == id)).length ≤ 1 := by
  by_cases hc : c.sv = id
  · subst hc
    rw [clock_latch_filter_self buffer c h]
    simp
  · rw [clock_latch_filter_other buffer c id hc]
    exact h

/-- Every `ClockBuffer::latch` history from the empty buffer keeps at most
one entry per satellite id. -/
theorem clock_run_count (l : List SvClock) (id : ℕ) :
    ((ClockBuffer.run l).filter (fun b => b.sv == id)).length ≤ 1 := by
  suffices h : ∀ buffer : ClockBuffer,
      (buffer.filter (fun b => b.sv == id)).length ≤ 1 →
      ((l.foldl ClockBuffer.latch buffer).filter (fun b => b.sv == id)).length ≤ 1 from
    h [] (by simp)
  induction l with
  | nil => intro buffer hb; simpa using hb
  | cons c rest ih =>
      intro buffer hb
      exact ih (ClockBuffer.latch buffer c) (clock_latch_count_le buffer c id hb)

/-! ### C8 -/

/-- C8: the satellite caches hold at most one entry per satellite id along
every latch history from the empty buffer, and a latch for an id ends the
history with exactly one entry for that id, holding the most recently
latched values — for both `KeplerBuffer::latch` and `ClockBuffer::latch`. -/
theorem c8_latch_replaces :
    (∀ (l : List SVKepler) (id : ℕ),
        ((KeplerBuffer.run l).filter (fun b => b.sv == id)).length ≤ 1) ∧
      (∀ (l : List SVKepler) (k : SVKepler),
          (KeplerBuffer.run (l ++ [k])).filter (fun b => b.sv == k.sv) = [k]) ∧
        (∀ (l : List SvClock) (id : ℕ),
            ((ClockBuffer.run l).filter (fun b => b.sv == id)).length ≤ 1) ∧
          (∀ (l : List SvClock) (c : SvClock),
              (ClockBuffer.run (l ++ [c])).filter (fun b => b.sv == c.sv) =
                [{ sv := c.sv, af0 := c.af0 }]) := by
  refine ⟨kepler_run_count, ?_, clock_run_count, ?_⟩
  · intro l k
    unfold KeplerBuffer.run
    rw [List.foldl_append]
    exact kepler_latch_filter_self _ k
  · intro l c
    unfold ClockBuffer.run
    rw [List.foldl_append]
    exact clock_latch_filter_self _ c (clock_run_count l c.sv)

/-! ### Shared lemmas about `KeplerBuffer::next_at` -/

/-- All-zero stand-ins for the transcendental operations. -/
def zeroOps : FloatOps :=
  { sin := fun _ => 0, cos := fun _ => 0, sqrt := fun _ => 0, atan2 := fun _ _ => 0 }

/-- Whenever the satellite lookup succeeds, `next_at` returns `some`
position — for every choice of the transcendental operations, i.e. nothing
about the numerical state (in particular not the Kepler solve) can turn
the result into a failure. -/
theorem next_at_isSome_of_mem (F : FloatOps) (buffer : List SVKepler) (epoch : Epoch)
    (sv : ℕ) (frame : ℕ) (h : ∃ b ∈ buffer, b.sv = sv) :
    (KeplerBuffer.next_at F buffer epoch sv frame).isSome = true := by
  obtain ⟨b, hb, hbsv⟩ := h
  have hfind : (buffer.find? (fun buf => buf.sv == sv)).isSome = true := by
    rw [List.find?_isSome]
    exact ⟨b, hb, by simpa using hbsv⟩
  unfold KeplerBuffer.next_at
  cases hf : buffer.find? (fun buf => buf.sv == sv) with
  | none => rw [hf] at hfind; simp at hfind
  | some sv_data => rfl

/-- When no entry matches the satellite id, the lookup fails. -/
theorem find?_eq_none_of_absent (buffer : List SVKepler) (sv : ℕ)
    (h : ∀ b ∈ buffer, b.sv ≠ sv) :
    buffer.find? (fun buf => buf.sv == sv) = none := by
  rw [List.find?_eq_none]
  intro b hb
  simpa using h b hb

/-! ### C9 -/

/-- C9: for every cache state, query epoch and satellite id with no cache
entry for that id, the queries return `None` rather than failing or
producing a value: `KeplerBuffer::next_at` and
`ClockBuffer::clock_correction` both return `None`. -/
theorem c9_missing_sv_none :
    (∀ (F : FloatOps) (buffer : List SVKepler) (epoch : Epoch) (sv frame : ℕ),
        (∀ b ∈ buffer, b.sv ≠ sv) →
        KeplerBuffer.next_at F buffer epoch sv frame = none) ∧
      (∀ (buffer : ClockBuffer) (sv : ℕ), (∀ b ∈ buffer, b.sv ≠ sv) →
          ClockBuffer.clock_correction buffer sv = none) := by
  constructor
  · intro F buffer epoch sv frame h
    unfold KeplerBuffer.next_at
    rw [find?_eq_none_of_absent buffer sv h]
  · intro buffer sv h
    unfold ClockBuffer.clock_correction
    have hfind : buffer.find? (fun buf => buf.sv == sv) = none := by
      rw [List.find?_eq_none]
      intro b hb
      simpa using h b hb
    rw [hfind]

/-- C9 witness: both queries on the empty caches. -/
theorem c9_missing_sv_none_witness :
    KeplerBuffer.next_at zeroOps [] 0 1 0 = none ∧
      ClockBuffer.clock_correction [] 1 = none :=
  ⟨c9_missing_sv_none.1 zeroOps [] 0 1 0 (by simp),
    c9_missing_sv_none.2 [] 1 (by simp)⟩

/-! ### C3 -/

/-- C3 (amended): the Kepler solve runs the fixed-point step
`E ← M + e·sin E` from `E₀ = 0` an unconditional 30 times — there is no
tolerance test — and `next_at` returns a successful position whenever the
satellite has a cache entry, for every behaviour of the transcendental
operations: a non-converged solve is never surfaced to the caller. -/
theorem c3_kepler_silent_success :
    (∀ (F : FloatOps) (m e : ℚ) (n : ℕ),
        kepler_iter F m e (n + 1) = m + e * F.sin (kepler_iter F m e n)) ∧
      (∀ (F : FloatOps) (buffer : List SVKepler) (epoch : Epoch) (sv frame : ℕ),
          (∃ b ∈ buffer, b.sv = sv) →
          (KeplerBuffer.next_at F buffer epoch sv frame).isSome = true) :=
  ⟨fun _ _ _ _ => rfl, next_at_isSome_of_mem⟩

/-- Transcendental stand-ins for which the Kepler fixed-point iteration
oscillates forever: `sin` is replaced by `x ↦ 1 - x`. -/
def oscOps : FloatOps :=
  { sin := fun x => 1 - x, cos := fun _ => 0, sqrt := fun _ => 0, atan2 := fun _ _ => 0 }

/-- A cache entry with `m0 = 0`, `e = 1`, `Δn = 0`, `a = 1`, `toe = 0`:
under `oscOps` the solved mean anomaly is `M = 0` and the iteration
alternates between 0 and 1. -/
def kOsc : SVKepler :=
  { sv := 7, a := 1, e := 1, m0 := 0, i0 := 0, cuc := 0, cus := 0, crc := 0,
    crs := 0, cic := 0, cis := 0, toc := 0, toe := 0, i_dot := 0, delta_n := 0,
    week := 0, omega := 0, omega0 := 0, omega_dot := 0 }

/-- C3 witness: the amended theorem at one concrete step of the iteration
and at a one-entry cache. -/
theorem c3_kepler_silent_success_witness :
    kepler_iter zeroOps 0 1 1 = 0 + 1 * zeroOps.sin (kepler_iter zeroOps 0 1 0) ∧
      (KeplerBuffer.next_at zeroOps [kOsc] 0 7 0).isSome = true :=
  ⟨c3_kepler_silent_success.1 zeroOps 0 1 0,
    c3_kepler_silent_success.2 zeroOps [kOsc] 0 7 0 ⟨kOsc, by simp, rfl⟩⟩

/-- Under `oscOps` at `M = 0`, `e = 1` every iteration step flips the
iterate to its complement in 1. -/
theorem osc_step (i : ℕ) :
    kepler_iter oscOps 0 1 (i + 1) = 1 - kepler_iter oscOps 0 1 i := by
  simp [kepler_iter, oscOps]

/-- The oscillating iterates only take the values 0 and 1. -/
theorem osc_values (i : ℕ) :
    kepler_iter oscOps 0 1 i = 0 ∨ kepler_iter oscOps 0 1 i = 1 := by
  induction i with
  | zero => exact Or.inl rfl
  | succ n ih =>
      rw [osc_step]
      rcases ih with h | h <;> rw [h] <;> norm_num

/-- Consecutive oscillating iterates always differ by exactly 1. -/
theorem osc_diff (i : ℕ) :
    |kepler_iter oscOps 0 1 (i + 1) - kepler_iter oscOps 0 1 i| = 1 := by
  rw [osc_step]
  rcases osc_values i with h | h <;> rw [h] <;> norm_num

/-- C3 counterexample: with the oscillating stand-in the iterates at
`M = 0`, `e = 1` never come within `1e-10` of each other — every one of
the 30 steps, including the final one, moves by a full unit, so the claim's
convergence criterion never fires and the hard cap is hit without
convergence — yet `next_at` on a cache holding the corresponding entry
still answers with a successful position instead of any distinguishable
non-convergence condition. -/
theorem c3_kepler_counterexample :
    (∀ i : ℕ, i < 30 →
        ¬(|kepler_iter oscOps 0 1 (i + 1) - kepler_iter oscOps 0 1 i| < 1 / 10 ^ 10)) ∧
      (KeplerBuffer.next_at oscOps [kOsc] 0 7 0).isSome = true := by
  constructor
  · intro i _
    rw [osc_diff]
    norm_num
  · rfl

/-! ### C2 -/

/-- A cache entry whose broadcast toe (604000 s) sits at the far end of
the week: broadcast week field 152, i.e. week 2200 modulo 1024. -/
def kWeekEnd : SVKepler := { kOsc with sv := 5, week := 152, toe := 604000 }

/-- A query epoch 1000 s into GPS week 2200. -/
def tQuery : Epoch := 2200 * weekNanos + 1000 * 1000000000

/-- C2 counterexample: at a query 1000 s into week 2200 against a toe of
604000 s (same resolved week), the code's `t_k` is the wrapped
seconds-of-week difference `1000 - 604000 + 604800 = 1800`, while the
absolute-epoch difference `query - toe_gpst` is `-603000` s — the claimed
equality of `t_k` with the resolved absolute-epoch difference fails. -/
theorem c2_tk_counterexample :
    tkWrap tQuery kWeekEnd.toe = 1800 ∧
      ((tQuery : ℚ) - (kWeekEnd.toe_gpst tQuery : ℚ)) / 1000000000 = -603000 ∧
        (tkWrap tQuery kWeekEnd.toe : ℚ) ≠
          ((tQuery : ℚ) - (kWeekEnd.toe_gpst tQuery : ℚ)) / 1000000000 := by
  have h1 : tkWrap tQuery kWeekEnd.toe = 1800 := by
    norm_num [tkWrap, towNanos, tQuery, weekNanos, kWeekEnd, kOsc]
  have h2 : (kWeekEnd.toe_gpst tQuery : ℕ) = 2200 * weekNanos + 604000 * 1000000000 := by
    norm_num [SVKepler.toe_gpst, GpsSvEphemeris.week_number, fromTimeOfWeek,
      toWeek, tQuery, weekNanos, kWeekEnd, kOsc]
  have h3 : ((tQuery : ℚ) - (kWeekEnd.toe_gpst tQuery : ℚ)) / 1000000000 = -603000 := by
    rw [h2]
    norm_num [tQuery, weekNanos]
  refine ⟨h1, h3, ?_⟩
  rw [h1, h3]
  norm_num

/-- C2 (amended): `t_k` is the raw seconds-of-week subtraction
`tow(query) - toe`, wrapped into the half-week window by ±604800; the
resolved `toe_gpst` epoch is computed but feeds only a debug log.  The
wrapped value agrees with the absolute-epoch difference only under side
conditions: the query is on a whole second, the resolver maps the entry's
broadcast week to the query's own week, and the raw difference is within
±302400 s so no wrap fires. -/
theorem c2_tk_sow_wrap (t : Epoch) (k : SVKepler)
    (hdvd : 1000000000 ∣ t)
    (hweek : GpsSvEphemeris.week_number t k.week = toWeek t)
    (hlo : -302400 ≤ ((towNanos t / 1000000000 : ℕ) : ℤ) - (k.toe : ℤ))
    (hhi : ((towNanos t / 1000000000 : ℕ) : ℤ) - (k.toe : ℤ) ≤ 302400) :
    (tkWrap t k.toe : ℚ) = ((t : ℚ) - (k.toe_gpst t : ℚ)) / 1000000000 := by
  have hdw : (1000000000 : ℕ) ∣ weekNanos := ⟨604800, by norm_num [weekNanos]⟩
  have hq : 1000000000 * (towNanos t / 1000000000) = towNanos t := by
    refine Nat.mul_div_cancel' ?_
    unfold towNanos
    rw [Nat.dvd_mod_iff hdw]
    exact hdvd
  have htk : tkWrap t k.toe = ((towNanos t / 1000000000 : ℕ) : ℤ) - (k.toe : ℤ) := by
    have h1 : ¬(((towNanos t / 1000000000 : ℕ) : ℤ) - (k.toe : ℤ) > 302400) := by omega
    have h2 : ¬(((towNanos t / 1000000000 : ℕ) : ℤ) - (k.toe : ℤ) < -302400) := by omega
    simp only [tkWrap]
    rw [if_neg h1, if_neg h2]
  have htoe : (k.toe_gpst t : ℕ) = toWeek t * weekNanos + k.toe * 1000000000 := by
    unfold SVKepler.toe_gpst fromTimeOfWeek
    rw [hweek]
  have hsplit : (t : ℕ) = toWeek t * weekNanos + towNanos t := by
    unfold toWeek towNanos
    rw [mul_comm]
    exact (Nat.div_add_mod t weekNanos).symm
  have hsplitQ : (t : ℚ) = (toWeek t : ℚ) * (weekNanos : ℚ) + (towNanos t : ℚ) := by
    exact_mod_cast congrArg (fun n : ℕ => (n : ℚ)) hsplit
  have hqQ : (1000000000 : ℚ) * ((towNanos t / 1000000000 : ℕ) : ℚ) = (towNanos t : ℚ) := by
    exact_mod_cast congrArg (fun n : ℕ => (n : ℚ)) hq
  have hnum : (t : ℚ) - ((k.toe_gpst t : ℕ) : ℚ) =
      (towNanos t : ℚ) - (k.toe : ℚ) * 1000000000 := by
    rw [htoe, hsplitQ]
    push_cast
    ring
  rw [htk, hnum, ← hqQ]
  rw [Int.cast_sub, Int.cast_natCast, Int.cast_natCast]
  rw [eq_div_iff (by norm_num : (1000000000 : ℚ) ≠ 0)]
  ring

/-- A cache entry with toe 500 s in the same resolved week as `tQuery`. -/
def kWeekMid : SVKepler := { kOsc with sv := 5, week := 152, toe := 500 }

/-- C2 witness: the amended theorem at the concrete query `tQuery` and the
entry `kWeekMid`, where no wrap fires and both sides equal 500 s. -/
theorem c2_tk_sow_wrap_witness :
    (tkWrap tQuery kWeekMid.toe : ℚ) =
      ((tQuery : ℚ) - (kWeekMid.toe_gpst tQuery : ℚ)) / 1000000000 :=
  c2_tk_sow_wrap tQuery kWeekMid
    (by norm_num [tQuery, weekNanos])
    (by norm_num [GpsSvEphemeris.week_number, toWeek, tQuery, weekNanos, kWeekMid, kOsc])
    (by norm_num [towNanos, tQuery, weekNanos, kWeekMid, kOsc])
    (by norm_num [towNanos, tQuery, weekNanos, kWeekMid, kOsc])

/-! ### C6 -/

/-- Evaluation of `GpsSvEphemeris::clock_correction` on its success path:
when the (inverted) completeness guard passes, subframe 1 is present and
the toc resolves, the result is the polynomial evaluated at the tenth
iterate of `dt ← dt - (af0 + af1·dt + af2·dt²)` seeded from
`dt0 = (t - toc) / 1e9`. -/
theorem clock_correction_eq (e : GpsSvEphemeris) (t : Epoch) (f1 : Frame1)
    (toc : Epoch) (hcomp : e.is_complete = false) (hf1 : e.frame1 = some f1)
    (htoc : e.toc_gpst t = some toc) :
    e.clock_correction t =
      some (f1.af0_s +
        f1.af1_s_s *
          clockIter f1.af0_s f1.af1_s_s f1.af2_s_s2 10
            (((t : ℚ) - (toc : ℚ)) / 1000000000) +
        f1.af2_s_s2 *
          clockIter f1.af0_s f1.af1_s_s f1.af2_s_s2 10
            (((t : ℚ) - (toc : ℚ)) / 1000000000) ^ 2) := by
  simp only [GpsSvEphemeris.clock_correction, hcomp, hf1, htoc, Bool.false_eq_true,
    if_false]

/-- With `af0 = af2 = 0`, the code's iteration contracts by `1 - af1` each
step. -/
theorem clockIter_linear (a1 : ℚ) : ∀ (n : ℕ) (dt : ℚ),
    clockIter 0 a1 0 n dt = (1 - a1) ^ n * dt
  | 0, dt => by simp [clockIter]
  | n + 1, dt => by
      rw [clockIter, clockIter_linear a1 n]
      ring

/-- With `af0 = af2 = 0`, the claim's iteration contracts by `af1` each
step. -/
theorem clockSpecIter_linear (a1 : ℚ) : ∀ (n : ℕ) (dt : ℚ),
    clockSpecIter 0 a1 0 n dt = a1 ^ n * dt
  | 0, dt => by simp [clockSpecIter]
  | n + 1, dt => by
      rw [clockSpecIter, clockSpecIter_linear a1 n]
      ring

/-- A subframe-1 record with `af0 = 0`, `af1 = 1/2`, `af2 = 0`, toc 0. -/
def f1c : Frame1 :=
  { week := 0, iodc := 0, toc_s := 0, af0_s := 0, af1_s_s := 1 / 2, af2_s_s2 := 0 }

/-- A satellite state holding only that subframe 1 (so the inverted
completeness guard lets `clock_correction` through). -/
def ephClock : GpsSvEphemeris :=
  { sv := 2, state := .collecting, frame1 := some f1c, frame2 := none, frame3 := none }

/-- C6 counterexample: with `af0 = 0`, `af1 = 1/2`, `af2 = 0` and
`dt0 = 1` s, the code returns `af1·(1-af1)^10·dt0 = 1/2048` while the
claim's iteration `dt ← af0 + af1·dt + af2·dt²` converges to
`af1^10·dt0 = 1/1024` — the two computations disagree. -/
theorem c6_clock_counterexample :
    ephClock.clock_correction 1000000000 = some (1 / 2048) ∧
      clockSpecIter 0 (1 / 2) 0 10 1 = 1 / 1024 ∧
        (1 / 2048 : ℚ) ≠ (1 / 1024 : ℚ) := by
  refine ⟨?_, ?_, by norm_num⟩
  · rw [clock_correction_eq ephClock 1000000000 f1c 0 rfl rfl rfl]
    have h1 : ((1000000000 : ℕ) : ℚ) = 1000000000 := by norm_num
    have h0 : ((0 : ℕ) : ℚ) = 0 := by norm_num
    simp only [f1c, h1, h0]
    rw [show ((1000000000 : ℚ) - 0) / 1000000000 = 1 by norm_num]
    rw [clockIter_linear]
    norm_num
  · rw [clockSpecIter_linear]
    norm_num

/-- C6 (amended): `clock_correction` seeds `dt` from
`dt0 = (t_gpst - toc) / 1e9` but iterates `dt ← dt - (af0 + af1·dt +
af2·dt²)` (not `dt ← af0 + af1·dt + af2·dt²`) ten times, and returns the
polynomial `af0 + af1·dt + af2·dt²` evaluated at the final iterate rather
than the iterate itself; it reaches this computation only when the
inverted guard `is_complete = false` lets it through. -/
theorem c6_clock_iteration (e : GpsSvEphemeris) (t : Epoch) (f1 : Frame1)
    (toc : Epoch) (hcomp : e.is_complete = false) (hf1 : e.frame1 = some f1)
    (htoc : e.toc_gpst t = some toc) :
    e.clock_correction t =
      some (f1.af0_s +
        f1.af1_s_s *
          clockIter f1.af0_s f1.af1_s_s f1.af2_s_s2 10
            (((t : ℚ) - (toc : ℚ)) / 1000000000) +
        f1.af2_s_s2 *
          clockIter f1.af0_s f1.af1_s_s f1.af2_s_s2 10
            (((t : ℚ) - (toc : ℚ)) / 1000000000) ^ 2) :=
  clock_correction_eq e t f1 toc hcomp hf1 htoc

/-- C6 witness: the amended theorem at the concrete state `ephClock` and
query epoch 1 s. -/
theorem c6_clock_iteration_witness :
    ephClock.clock_correction 1000000000 =
      some (f1c.af0_s +
        f1c.af1_s_s *
          clockIter f1c.af0_s f1c.af1_s_s f1c.af2_s_s2 10
            ((((1000000000 : ℕ) : ℚ) - ((0 : ℕ) : ℚ)) / 1000000000) +
        f1c.af2_s_s2 *
          clockIter f1c.af0_s f1c.af1_s_s f1c.af2_s_s2 10
            ((((1000000000 : ℕ) : ℚ) - ((0 : ℕ) : ℚ)) / 1000000000) ^ 2) :=
  c6_clock_iteration ephClock 1000000000 f1c 0 rfl rfl rfl

/-! ### C5 -/

/-- The multiple of 1024 picked by rounding lies within 512. -/
theorem round_scaled_close (d : ℤ) :
    |(d : ℚ) - 1024 * (round ((d : ℚ) / 1024) : ℚ)| ≤ 512 := by
  have h := abs_sub_round ((d : ℚ) / 1024)
  have h2 : |(d : ℚ) / 1024 - (round ((d : ℚ) / 1024) : ℚ)| * 1024 ≤ (1 / 2) * 1024 :=
    mul_le_mul_of_nonneg_right h (by norm_num)
  have h3 : |(d : ℚ) / 1024 - (round ((d : ℚ) / 1024) : ℚ)| * 1024 =
      |((d : ℚ) / 1024 - (round ((d : ℚ) / 1024) : ℚ)) * 1024| := by
    rw [abs_mul, abs_of_nonneg (show (0 : ℚ) ≤ 1024 by norm_num)]
  have h4 : ((d : ℚ) / 1024 - (round ((d : ℚ) / 1024) : ℚ)) * 1024 =
      (d : ℚ) - 1024 * (round ((d : ℚ) / 1024) : ℚ) := by
    ring
  rw [h3, h4] at h2
  linarith

/-- Among all multiples of 1024, the rounded one minimizes the distance. -/
theorem round_scaled_min (d j : ℤ) :
    |d - 1024 * round ((d : ℚ) / 1024)| ≤ |d - 1024 * j| := by
  rcases eq_or_ne j (round ((d : ℚ) / 1024)) with rfl | hne
  · exact le_refl _
  · set r := round ((d : ℚ) / 1024) with hr
    have hclose := round_scaled_close d
    have hone : (1 : ℚ) ≤ |((r - j : ℤ) : ℚ)| := by
      exact_mod_cast Int.one_le_abs (sub_ne_zero.mpr (Ne.symm hne))
    have h1024 : (1024 : ℚ) ≤ |(1024 : ℚ) * ((r - j : ℤ) : ℚ)| := by
      rw [abs_mul, abs_of_nonneg (show (0 : ℚ) ≤ 1024 by norm_num)]
      nlinarith
    have hid : ((d - 1024 * j : ℤ) : ℚ) =
        ((d : ℚ) - 1024 * (r : ℚ)) + 1024 * ((r - j : ℤ) : ℚ) := by
      push_cast
      ring
    have htri : |(1024 : ℚ) * ((r - j : ℤ) : ℚ)| ≤
        |((d : ℚ) - 1024 * (r : ℚ)) + 1024 * ((r - j : ℤ) : ℚ)| +
          |(d : ℚ) - 1024 * (r : ℚ)| := by
      have h := abs_add (((d : ℚ) - 1024 * (r : ℚ)) + 1024 * ((r - j : ℤ) : ℚ))
        (-((d : ℚ) - 1024 * (r : ℚ)))
      rw [abs_neg] at h
      have h2 : ((d : ℚ) - 1024 * (r : ℚ)) + 1024 * ((r - j : ℤ) : ℚ) +
          -((d : ℚ) - 1024 * (r : ℚ)) = 1024 * ((r - j : ℤ) : ℚ) := by ring
      rw [h2] at h
      exact h
    have hfinal : |((d - 1024 * r : ℤ) : ℚ)| ≤ |((d - 1024 * j : ℤ) : ℚ)| := by
      have hl : |((d - 1024 * r : ℤ) : ℚ)| = |(d : ℚ) - 1024 * (r : ℚ)| := by
        push_cast
        rfl
      rw [hl, hid]
      linarith
    exact_mod_cast hfinal

/-- The `rollover` arithmetic as a signed integer: `(delta + 512) / 1024`
equals the rational `round` of `delta / 1024`. -/
theorem rollover_int (delta : ℕ) :
    (((delta + 512) / 1024 : ℕ) : ℤ) = round ((delta : ℚ) / 1024) := by
  have h := rollover_fidelity delta
  have hnn : 0 ≤ round ((delta : ℚ) / 1024) := by
    rw [round_eq]
    refine Int.le_floor.mpr ?_
    push_cast
    positivity
  rw [h, Int.toNat_of_nonneg hnn]

/-- C5 (amended): whenever the broadcast week field does not exceed the
observed week and the observed week is below `2^32 - 512` (so no u32 wrap
fires), the resolver returns exactly
`broadcast + 1024 · round((observed - broadcast) / 1024)`, and that
candidate minimizes `|observed - candidate|` over all candidates
`broadcast + 1024·k`, `k` an integer.  (Outside that range the same value
is returned only reduced modulo `2^32`, see the counterexample.) -/
theorem c5_week_minimizer (t : Epoch) (wn : ℕ) (h16 : wn < 2 ^ 16)
    (hcur : wn ≤ toWeek t % 2 ^ 32) (htop : toWeek t % 2 ^ 32 < 2 ^ 32 - 512) :
    ((GpsSvEphemeris.week_number t wn : ℕ) : ℤ) =
        (wn : ℤ) +
          1024 * roundAway ((((toWeek t % 2 ^ 32 : ℕ) : ℚ) - ((wn : ℕ) : ℚ)) / 1024) ∧
      ∀ j : ℤ,
        |((toWeek t % 2 ^ 32 : ℕ) : ℤ) - ((GpsSvEphemeris.week_number t wn : ℕ) : ℤ)| ≤
          |((toWeek t % 2 ^ 32 : ℕ) : ℤ) - ((wn : ℤ) + 1024 * j)| := by
  set cur := toWeek t % 2 ^ 32 with hcurdef
  set delta := cur - wn with hdeltadef
  have hlt32 : cur < 2 ^ 32 := Nat.mod_lt _ (by norm_num)
  have hd1 : (cur + 2 ^ 32 - wn) % 2 ^ 32 = delta := by
    have h1 : cur + 2 ^ 32 - wn = delta + 2 ^ 32 := by omega
    rw [h1, Nat.add_mod_right, Nat.mod_eq_of_lt (by omega)]
  have hout : wn + 1024 * ((delta + 512) / 1024) < 2 ^ 32 := by
    have h := Nat.div_mul_le_self (delta + 512) 1024
    omega
  have hwn_eval : GpsSvEphemeris.week_number t wn =
      wn + 1024 * ((delta + 512) / 1024) := by
    simp only [GpsSvEphemeris.week_number]
    rw [← hcurdef, hd1, Nat.mod_eq_of_lt hout]
  have hdeltaZ : ((delta : ℕ) : ℤ) = ((cur : ℕ) : ℤ) - ((wn : ℕ) : ℤ) := by
    rw [hdeltadef]
    exact Int.ofNat_sub hcur
  have hdeltaQ : ((delta : ℕ) : ℚ) = ((cur : ℕ) : ℚ) - ((wn : ℕ) : ℚ) := by
    rw [hdeltadef]
    exact Nat.cast_sub hcur
  have hroundQ : roundAway ((((cur : ℕ) : ℚ) - ((wn : ℕ) : ℚ)) / 1024) =
      round (((delta : ℕ) : ℚ) / 1024) := by
    rw [← hdeltaQ, roundAway, if_pos (by positivity)]
  constructor
  · rw [hwn_eval, hroundQ, ← rollover_int]
    push_cast
    ring
  · intro j
    rw [hwn_eval]
    have hl : ((cur : ℕ) : ℤ) - ((wn + 1024 * ((delta + 512) / 1024) : ℕ) : ℤ) =
        ((delta : ℕ) : ℤ) - 1024 * (((delta + 512) / 1024 : ℕ) : ℤ) := by
      push_cast
      rw [hdeltaZ]
      ring
    have hr : ((cur : ℕ) : ℤ) - ((wn : ℤ) + 1024 * j) =
        ((delta : ℕ) : ℤ) - 1024 * j := by
      rw [hdeltaZ]
      ring
    rw [hl, hr, rollover_int]
    have hcast : ((((delta : ℕ) : ℤ) : ℚ)) = ((delta : ℕ) : ℚ) := by
      push_cast
      rfl
    have h := round_scaled_min ((delta : ℕ) : ℤ) j
    rw [hcast] at h
    exact h

/-- C5 counterexample: at observed week 0 with broadcast week field 65535
(a valid u16), the u32 wrap fires: the code returns 4294967295, while the
claim's formula `broadcast + 1024 · round((observed - broadcast)/1024)`
gives -1, and the candidate `65535 + 1024·(-64) = -1` is strictly closer
to the observed week than the returned value — the returned week is not
the minimizing candidate. -/
theorem c5_week_counterexample :
    GpsSvEphemeris.week_number 0 65535 = 4294967295 ∧
      (65535 : ℤ) + 1024 * roundAway (((0 : ℚ) - 65535) / 1024) = -1 ∧
        |(0 : ℤ) - ((GpsSvEphemeris.week_number 0 65535 : ℕ) : ℤ)| >
          |(0 : ℤ) - ((65535 : ℤ) + 1024 * (-64))| := by
  have hweek : GpsSvEphemeris.week_number 0 65535 = 4294967295 := by decide
  have h64 : round ((65535 : ℚ) / 1024) = 64 := by
    have heq : (65535 : ℚ) / 1024 + 1 / 2 = ((66047 : ℕ) : ℚ) / ((1024 : ℕ) : ℚ) := by
      norm_num
    rw [round_eq, heq, Rat.floor_natCast_div_natCast]
    norm_num
  refine ⟨hweek, ?_, ?_⟩
  · have hx : ¬(0 : ℚ) ≤ ((0 : ℚ) - 65535) / 1024 := by norm_num
    rw [roundAway, if_neg hx,
      show -(((0 : ℚ) - 65535) / 1024) = (65535 : ℚ) / 1024 by ring, h64]
    norm_num
  · rw [hweek]
    norm_num

/-- C5 witness: the amended theorem at observed week 2200 (epoch at the
start of week 2200) and broadcast field 152 = 2200 mod 1024. -/
theorem c5_week_minimizer_witness :
    ((GpsSvEphemeris.week_number (2200 * weekNanos) 152 : ℕ) : ℤ) =
        (152 : ℤ) +
          1024 *
            roundAway ((((toWeek (2200 * weekNanos) % 2 ^ 32 : ℕ) : ℚ) -
              ((152 : ℕ) : ℚ)) / 1024) ∧
      ∀ j : ℤ,
        |((toWeek (2200 * weekNanos) % 2 ^ 32 : ℕ) : ℤ) -
            ((GpsSvEphemeris.week_number (2200 * weekNanos) 152 : ℕ) : ℤ)| ≤
          |((toWeek (2200 * weekNanos) % 2 ^ 32 : ℕ) : ℤ) -
            ((152 : ℤ) + 1024 * j)| :=
  c5_week_minimizer (2200 * weekNanos) 152 (by norm_num) (by decide) (by decide)

end RtNavi
